import Mathlib

/-!
Verification of the streaming session supervisor and scheduler of the
tipsunixlive repository, as a shallow embedding in Lean 4.

The definitions below are translated from the Python source:
  * `app/routers/live.py`            (manual start, admission checks)
  * `app/services/ffmpeg_service.py` (encoder supervisor, registry, monitor loop)
  * `app/services/live_scheduler_service.py` (scheduled triggers)
  * `app/services/stream_control_service.py` (stop paths, health monitor)
  * `app/main.py`                    (boot reconciliation)
Machine-level details (actual subprocesses, sleeping, SQLAlchemy sessions)
are represented by explicit state passing: the database is a record of
lists of rows, the OS process table is a list of pids, and the outcome of
spawning the encoder binary is an explicit parameter.  Status fields are
kept as the literal strings the source stores in the database.
-/

/-- A `stream_keys` row (`app/models/stream_key.py`).  `get_full_key`
returns the secret, which we keep as `key`. -/
structure StreamKey where
  id : Nat
  name : String
  key : String
  is_active : Bool
deriving Repr, DecidableEq

/-- A `videos` row, reduced to the fields the core reads. -/
structure Video where
  id : Nat
  path : String
deriving Repr, DecidableEq

/-- A `playlists` row.  `PlaylistService.get_video_paths` resolves the
playlist to an ordered list of file paths (shuffled when `mode = random`;
the shuffle only permutes `paths`, which none of the verified claims
depend on, so we return the stored order). -/
structure Playlist where
  id : Nat
  mode : String
  paths : List String
deriving Repr, DecidableEq

/-- A `live_sessions` row (`app/models/live_session.py`).  Timestamps are
abstract instants in seconds. -/
structure LiveSession where
  id : Nat
  stream_key_id : Nat
  video_id : Option Nat
  playlist_id : Option Nat
  mode : String
  status : String
  ffmpeg_pid : Option Nat
  start_time : Nat
  end_time : Option Nat
  restart_count : Nat
  last_error : Option String
  max_duration_hours : Nat
  loop : Bool
deriving Repr, DecidableEq

/-- A `scheduled_lives` row (`app/models/scheduled_live.py`). -/
structure ScheduledLive where
  id : Nat
  stream_key_id : Nat
  video_id : Option Nat
  playlist_id : Option Nat
  scheduled_time : Nat
  mode : String
  loop : Bool
  recurrence : String
  max_duration_hours : Nat
  job_id : Option String
  status : String
  live_session_id : Option Nat
  started_at : Option Nat
  completed_at : Option Nat
  error_message : Option String
deriving Repr, DecidableEq

/-- The relational store. `next_session_id` and `next_sched_id` model the
autoincrement primary keys. -/
structure Db where
  stream_keys : List StreamKey
  videos : List Video
  playlists : List Playlist
  sessions : List LiveSession
  scheds : List ScheduledLive
  next_session_id : Nat
  next_sched_id : Nat
deriving Repr, DecidableEq

/-- The whole world at one instant: the database, the APScheduler job
registry (`jobs` holds the registered job ids), and the pids of the ffmpeg
processes alive in the OS. -/
structure World where
  db : Db
  jobs : List String
  os_pids : List Nat
deriving Repr, DecidableEq

/-! ### Admission (`app/routers/live.py` lines 140-167,
`app/services/live_scheduler_service.py` lines 156-184)

Both the manual-start endpoint and the scheduler fire handler run the same
two checks.  `Validation 1`: `db.query(LiveSession).filter(stream_key_id ==
key, status == 'running').first()` is truthy; `Validation 2`:
`db.query(LiveSession).filter(status == 'running').count() >=
MAX_CONCURRENT_STREAMS`. -/

/-- The count `db.query(LiveSession).filter(LiveSession.status == 'running').count()`. -/
def totalActiveRunning (sessions : List LiveSession) : Nat :=
  (sessions.filter (fun s => s.status == "running")).length

/-- Result of the admission checks: 409 KeyBusy, 429 CapacityExhausted, or
proceed. -/
inductive AdmissionResult where
  | ok
  | keyBusy
  | capacityExhausted
deriving Repr, DecidableEq

/-- The admission checks of `start_manual_live` (live.py 140-167) and of
`_execute_scheduled_live` (live_scheduler_service.py 156-184), which are
textually the same two queries.  `cap` is `MAX_CONCURRENT_STREAMS`
(config.py, default 10). -/
def admissionCheck (sessions : List LiveSession) (key cap : Nat) : AdmissionResult :=
  if sessions.any (fun s => s.stream_key_id == key && s.status == "running") then
    AdmissionResult.keyBusy
  else if cap ≤ totalActiveRunning sessions then
    AdmissionResult.capacityExhausted
  else
    AdmissionResult.ok

/-! ### Encoder command line (`FFmpegService._build_ffmpeg_command`,
ffmpeg_service.py lines 335-387) -/

/-- Translation of `_build_ffmpeg_command`: the argument vector handed to `Popen` for a
plain-playlist session, translated verbatim from the source list literal. -/
def buildFFmpegCommand (ffmpegPath concatFile streamKey : String) (loop : Bool) :
    List String :=
  let rtmp_url := "rtmp://a.rtmp.youtube.com/live2/" ++ streamKey
  [ffmpegPath,
   "-nostdin",
   "-loglevel", "warning",
   "-re",
   "-fflags", "+genpts+igndts",
   "-f", "concat",
   "-safe", "0",
   "-stream_loop", if loop then "-1" else "0",
   "-i", concatFile,
   "-map", "0:v:0",
   "-map", "0:a:0",
   "-map_metadata", "-1",
   "-c:v", "copy",
   "-c:a", "copy",
   "-f", "flv",
   "-flvflags", "no_duration_filesize",
   rtmp_url]

/-- The §6a encoder argument shape stated by the specification, written
from the spec words: the common prefix
`-nostdin -loglevel warning -re -fflags +genpts+igndts` followed by the
plain-playlist tail that ends in the RTMP url. -/
def specPlainPlaylistArgs (concatFile streamKey : String) (loop : Bool) :
    List String :=
  ["-nostdin", "-loglevel", "warning", "-re", "-fflags", "+genpts+igndts"] ++
  ["-f", "concat", "-safe", "0",
   "-stream_loop", if loop then "-1" else "0",
   "-i", concatFile,
   "-map", "0:v:0", "-map", "0:a:0", "-map_metadata", "-1",
   "-c:v", "copy", "-c:a", "copy",
   "-f", "flv", "-flvflags", "no_duration_filesize",
   "rtmp://a.rtmp.youtube.com/live2/" ++ streamKey]

/-! ### Encoder supervisor registry (`FFmpegService`, ffmpeg_service.py)

`active_processes` is the in-memory registry keyed by session id.  Each
entry keeps the subprocess handle (pid plus the `poll()` result), the
retry counter and its maximum.  The stored restart arguments are not
re-inspected by the monitor logic we verify, so they are represented by
the fact that the entry exists.  The result of the OS-level `Popen` spawn
is the explicit parameter `spawnOk`; when it is true the spawn hands out
the fresh pid `next_pid`. -/

/-- The subprocess handle: its pid and the `poll()` result (`none` while
running, `some code` after exit). -/
structure ProcHandle where
  pid : Nat
  exit_code : Option Int
deriving Repr, DecidableEq

/-- One entry of `FFmpegService.active_processes` (ffmpeg_service.py
lines 116-131). -/
structure RegistryEntry where
  process : ProcHandle
  retry_count : Nat
  max_retries : Nat
deriving Repr, DecidableEq

/-- The supervisor state: the registry plus a source of fresh pids. -/
structure SupervisorState where
  active_processes : List (Nat × RegistryEntry)
  next_pid : Nat
deriving Repr, DecidableEq

/-- Translation of `FFmpegService.start_stream` (ffmpeg_service.py lines 47-143) at
registry level.  Line 78: if the session id is already registered the call
logs a warning and returns `None`; otherwise it spawns and registers the
new process with `retry_count = 0` and `max_retries = 5`. `spawnOk` stands
for the `Popen` call not raising. -/
def start_stream (st : SupervisorState) (session_id : Nat) (spawnOk : Bool) :
    Option Nat × SupervisorState :=
  if st.active_processes.any (fun e => e.fst == session_id) then
    (none, st)
  else if spawnOk then
    let pid := st.next_pid
    (some pid,
     { active_processes := st.active_processes ++
         [(session_id,
           { process := { pid := pid, exit_code := none },
             retry_count := 0, max_retries := 5 })],
       next_pid := st.next_pid + 1 })
  else
    (none, st)

/-- Translation of `FFmpegService.stop_stream` (ffmpeg_service.py lines 145-206) at
registry level: an unknown id returns `False`; otherwise the process is
terminated, the log handle and manifest are cleaned up, and the registry
entry is deleted. -/
def stop_stream_sup (st : SupervisorState) (session_id : Nat) :
    SupervisorState × Bool :=
  if st.active_processes.any (fun e => e.fst == session_id) then
    ({ st with active_processes :=
         st.active_processes.filter (fun e => !(e.fst == session_id)) }, true)
  else
    (st, false)

/-- Translation of `FFmpegService._restart_session` (ffmpeg_service.py lines 675-720):
closes the old handles (without deleting the registry entry), then calls
`start_stream` with the stored arguments; on success it copies the old
retry counter onto the fresh entry.  Returns the new state and whether a
new process was obtained. -/
def restart_session (st : SupervisorState) (session_id : Nat)
    (old : RegistryEntry) (spawnOk : Bool) : SupervisorState × Bool :=
  match start_stream st session_id spawnOk with
  | (some _, st1) =>
      ({ st1 with active_processes := st1.active_processes.map (fun e =>
           if e.fst == session_id then
             (e.fst, { e.snd with retry_count := old.retry_count }) else e) },
       true)
  | (none, st1) => (st1, false)

/-- What one pass of `_monitor_loop` (ffmpeg_service.py lines 629-673) did
for one session: nothing (process alive or id unknown), a backoff sleep of
`delay` seconds followed by a restart attempt whose success is recorded,
or the max-retries cleanup through `stop_stream`. -/
inductive MonitorEvent where
  | alive
  | sleptAndRestarted (delay : Nat) (succeeded : Bool)
  | maxRetriesCleanup
deriving Repr, DecidableEq

/-- The body of `_monitor_loop` for one session id (ffmpeg_service.py
lines 639-668).  When the process has died and `retry_count < max_retries`
the counter is incremented, the loop sleeps `5 * 2 ^ (retry_count - 1)`
seconds (with the incremented counter), re-checks that the session is
still registered, and calls `_restart_session`; at the maximum it calls
`stop_stream`.  The model is sequential, so the session is still
registered after the sleep. -/
def monitorStepFor (st : SupervisorState) (session_id : Nat) (spawnOk : Bool) :
    SupervisorState × MonitorEvent :=
  match st.active_processes.find? (fun e => e.fst == session_id) with
  | none => (st, MonitorEvent.alive)
  | some (_, data) =>
    match data.process.exit_code with
    | none => (st, MonitorEvent.alive)
    | some _ =>
      if data.retry_count < data.max_retries then
        let retry := data.retry_count + 1
        let wait := 5 * 2 ^ (retry - 1)
        let st1 := { st with active_processes := st.active_processes.map (fun e =>
          if e.fst == session_id then
            (e.fst, { e.snd with retry_count := retry }) else e) }
        let res := restart_session st1 session_id { data with retry_count := retry } spawnOk
        (res.fst, MonitorEvent.sleptAndRestarted wait res.snd)
      else
        ((stop_stream_sup st session_id).fst, MonitorEvent.maxRetriesCleanup)

/-! ### Theorems for claims C1 and C10 -/

/-- A session row with status `starting`, holding stream key 1.  Under the
specification this must block admission for key 1; the admission code only
looks at status `running`. -/
def startingSession : LiveSession :=
  { id := 1, stream_key_id := 1, video_id := some 1, playlist_id := none,
    mode := "single", status := "starting", ffmpeg_pid := none,
    start_time := 0, end_time := none, restart_count := 0,
    last_error := none, max_duration_hours := 0, loop := true }

/-- Claim C1 is false on the code: a session with status `starting` (one of
the three states the claim says must block) holds stream key 1, yet the
admission check of both start paths admits a new start for key 1 under the
default cap of 10. -/
theorem C1_counterexample :
    startingSession.status = "starting" ∧
    startingSession.stream_key_id = 1 ∧
    admissionCheck [startingSession] 1 10 = AdmissionResult.ok := by
  refine ⟨rfl, rfl, ?_⟩
  decide

/-- Claim C1 as amended: admission fails `KeyBusy` exactly when some
existing session for the requested key has status `running`, and fails
`CapacityExhausted` exactly when no such session exists and the count of
sessions with status `running` reaches the cap; sessions in any other
status (including `starting` and `recovering`) never block admission. -/
theorem C1_amended (sessions : List LiveSession) (key cap : Nat) :
    (admissionCheck sessions key cap = AdmissionResult.keyBusy ↔
      ∃ s ∈ sessions, s.stream_key_id = key ∧ s.status = "running") ∧
    (admissionCheck sessions key cap = AdmissionResult.capacityExhausted ↔
      (¬ ∃ s ∈ sessions, s.stream_key_id = key ∧ s.status = "running") ∧
      cap ≤ totalActiveRunning sessions) := by
  have hany : (sessions.any (fun s => s.stream_key_id == key && s.status == "running")) = true ↔
      ∃ s ∈ sessions, s.stream_key_id = key ∧ s.status = "running" := by
    simp [List.any_eq_true, Bool.and_eq_true, beq_iff_eq]
  unfold admissionCheck
  split
  · next h =>
    have hE := hany.mp h
    exact ⟨⟨fun _ => hE, fun _ => rfl⟩,
           ⟨fun hc => (nomatch hc), fun hc => absurd hE hc.1⟩⟩
  · next h =>
    have hno : ¬ ∃ s ∈ sessions, s.stream_key_id = key ∧ s.status = "running" :=
      fun hc => h (hany.mpr hc)
    split
    · next hcap =>
      exact ⟨⟨fun hc => (nomatch hc), fun hc => absurd hc hno⟩,
             ⟨fun _ => ⟨hno, hcap⟩, fun _ => rfl⟩⟩
    · next hcap =>
      exact ⟨⟨fun hc => (nomatch hc), fun hc => absurd hc hno⟩,
             ⟨fun hc => (nomatch hc), fun hc => absurd hc.2 hcap⟩⟩

/-- Claim C10: for every plain-playlist start, the encoder argument list
built by `_build_ffmpeg_command` is exactly the binary path followed by the
shape of §6a of the specification, bit for bit and in that order. -/
theorem C10_theorem (ffmpegPath concatFile streamKey : String) (loop : Bool) :
    buildFFmpegCommand ffmpegPath concatFile streamKey loop =
      ffmpegPath :: specPlainPlaylistArgs concatFile streamKey loop := by
  rfl

/-! ### Theorems for claims C2 and C3 -/

/-- A supervisor registry holding exactly session 1 whose process (pid 100)
has exited with code 1, with retry counter `r` and the default maximum of
5 retries. -/
def crashedRegistry (r : Nat) : SupervisorState :=
  { active_processes :=
      [(1, { process := { pid := 100, exit_code := some 1 },
             retry_count := r, max_retries := 5 })],
    next_pid := 101 }

/-- Claim C2, evaluated at the failing input: session 1 is registered, its
process has exited non-zero, the retry counter (0) is below the maximum,
the session is never stopped and the OS would happily spawn
(`spawnOk = true`); yet the watcher pass reports the restart attempt as
failed, and the registry still holds the old dead process handle (pid 100,
exit code 1) instead of a respawned encoder.  The cause is visible in the
definitions: `_restart_session` never removes the registry entry, and
`start_stream` refuses any session id that is still registered. -/
theorem C2_theorem :
    (monitorStepFor (crashedRegistry 0) 1 true).snd =
        MonitorEvent.sleptAndRestarted 5 false ∧
    ((monitorStepFor (crashedRegistry 0) 1 true).fst.active_processes.find?
        (fun e => e.fst == 1)).map (fun e => e.snd.process) =
      some { pid := 100, exit_code := some 1 } := by
  decide

/-- The backoff delay slept by the watcher before a restart attempt, when
one happens. -/
def monitorDelay (st : SupervisorState) (session_id : Nat) : Option Nat :=
  match (monitorStepFor st session_id true).snd with
  | MonitorEvent.sleptAndRestarted d _ => some d
  | _ => none

/-- Claim C3: before the k-th restart attempt of a crashed session
(k counted from 1, so the crash is observed with retry counter k-1) the
watcher sleeps exactly `5 * 2 ^ (k-1)` seconds; over the five permitted
attempts this yields exactly 5, 10, 20, 40, 80; and once the retry counter
has reached the maximum of 5 no restart is attempted: the watcher runs the
max-retries cleanup, which deletes the registry entry. -/
theorem C3_theorem :
    (∀ k : Nat, 1 ≤ k → k ≤ 5 →
      monitorDelay (crashedRegistry (k - 1)) 1 = some (5 * 2 ^ (k - 1))) ∧
    (List.range 5).map (fun r => monitorDelay (crashedRegistry r) 1) =
      [some 5, some 10, some 20, some 40, some 80] ∧
    (monitorStepFor (crashedRegistry 5) 1 true).snd =
        MonitorEvent.maxRetriesCleanup ∧
    (monitorStepFor (crashedRegistry 5) 1 true).fst.active_processes = [] := by
  refine ⟨?_, by decide, by decide, by decide⟩
  intro k h1 h5
  interval_cases k <;> decide

/-- Witness for C3: the third restart attempt is preceded by a 20 second
backoff. -/
theorem C3_witness :
    monitorDelay (crashedRegistry 2) 1 = some 20 :=
  C3_theorem.1 3 (by decide) (by decide)

/-! ### Scheduler (`LiveSchedulerService`, live_scheduler_service.py)

The APScheduler `BackgroundScheduler` is modelled by the `jobs` list of
the `World`: `add_job` appends the job id, `remove_job` deletes it.
The session row created at fire time carries `loop := true`: the ORM model
`live_session.py` has no `loop` attribute (the column is added at the SQL
level by `migrate_loop.py` with default 1), so the fire path leaves the
database default. -/

/-- Environment of one scheduler fire: the wall clock, the configured
`MAX_CONCURRENT_STREAMS`, and the outcome of the ffmpeg spawn
(`some pid` when `Popen` produced a process). -/
structure FireEnv where
  now : Nat
  cap : Nat
  spawnPid : Option Nat
deriving Repr, DecidableEq

/-- Apply `f` to every `scheduled_lives` row whose id is `schedId`. -/
def updateScheds (scheds : List ScheduledLive) (schedId : Nat)
    (f : ScheduledLive → ScheduledLive) : List ScheduledLive :=
  scheds.map (fun s => if s.id == schedId then f s else s)

/-- The row mutation at the top of the fire handler: status `running`,
`started_at` stamped (live_scheduler_service.py lines 140-143). -/
def schedToRunning (now : Nat) (s : ScheduledLive) : ScheduledLive :=
  { s with status := "running", started_at := some now }

/-- The row mutation of the `except` branch: status `failed`, the error
message recorded, `completed_at` stamped (lines 300-305). -/
def schedToFailed (msg : String) (now : Nat) (s : ScheduledLive) : ScheduledLive :=
  { s with status := "failed", error_message := some msg, completed_at := some now }

/-- The row mutation of the success path: session linked, status
`completed`, `completed_at` stamped (lines 258-262). -/
def schedToCompleted (sid now : Nat) (s : ScheduledLive) : ScheduledLive :=
  { s with live_session_id := some sid, status := "completed",
           completed_at := some now }

/-- The row mutation of cancellation: status `cancelled`, `completed_at`
stamped (lines 344-347). -/
def schedToCancelled (now : Nat) (s : ScheduledLive) : ScheduledLive :=
  { s with status := "cancelled", completed_at := some now }

/-- The `except` branch of `_execute_scheduled_live`
(live_scheduler_service.py lines 295-307). -/
def markSchedFailed (w : World) (schedId : Nat) (msg : String) (now : Nat) : World :=
  { w with db := { w.db with
      scheds := updateScheds w.db.scheds schedId (schedToFailed msg now) } }

/-- Translation of `LiveSchedulerService.schedule_live` (live_scheduler_service.py lines
33-115), as called on the recurrence path where the stream key and the
mode/content pairing have already been validated: persist a `pending` row,
give it the job id `live_schedule_<id>`, and register the one-shot timer. -/
def scheduleLive (w : World) (key time : Nat) (video playlist : Option Nat)
    (mode : String) (loop : Bool) (recurrence : String) (maxDuration : Nat) :
    World :=
  let sid := w.db.next_sched_id
  let jobId := "live_schedule_" ++ toString sid
  let row : ScheduledLive :=
    { id := sid, stream_key_id := key, video_id := video,
      playlist_id := playlist, scheduled_time := time, mode := mode,
      loop := loop, recurrence := recurrence,
      max_duration_hours := maxDuration, job_id := some jobId,
      status := "pending", live_session_id := none, started_at := none,
      completed_at := none, error_message := none }
  { w with
    db := { w.db with scheds := w.db.scheds ++ [row],
                      next_sched_id := sid + 1 },
    jobs := w.jobs ++ [jobId] }

/-- The checks of the `try` body of `_execute_scheduled_live` that run
before the session row is created (live_scheduler_service.py lines
145-222): stream key present and active, the two collision detections
(which are `admissionCheck`), then content resolution.  Any raised
exception is an `error`, which the caller turns into status `failed`. -/
def fireChecks (env : FireEnv) (w : World) (sl : ScheduledLive) :
    Except String (List String) :=
  match w.db.stream_keys.find? (fun k => k.id == sl.stream_key_id) with
  | none => Except.error "Stream key not found"
  | some key =>
    if !key.is_active then Except.error "Stream key is not active"
    else
      match admissionCheck w.db.sessions sl.stream_key_id env.cap with
      | AdmissionResult.keyBusy => Except.error "Stream key is already in use"
      | AdmissionResult.capacityExhausted =>
          Except.error "Maximum concurrent streams limit reached"
      | AdmissionResult.ok =>
        if sl.mode == "single" then
          match sl.video_id.bind (fun vid => w.db.videos.find? (fun v => v.id == vid)) with
          | none => Except.error "Video not found"
          | some v => Except.ok [v.path]
        else
          match sl.playlist_id.bind (fun plid => w.db.playlists.find? (fun p => p.id == plid)) with
          | none => Except.error "Playlist not found"
          | some p =>
            if p.paths.isEmpty then Except.error "Playlist has no videos"
            else Except.ok p.paths

/-- The observable outcome of one fire of a trigger, matching the three
exits of `_execute_scheduled_live`: row absent, finalized `failed`, or
finalized `completed`. -/
inductive FireOutcome where
  | notFound
  | failed (msg : String)
  | completed
deriving Repr, DecidableEq

/-- Translation of `LiveSchedulerService._execute_scheduled_live`
(live_scheduler_service.py lines 117-310).  The handler re-loads the row
and returns if it is absent; otherwise it unconditionally sets the row to
`running` (there is no check of the prior status), runs the checks, creates
the session row with status `starting`, spawns, and finalizes the trigger:
`failed` on any exception (the session row, if already inserted, is left
behind as `starting`), else `completed`, after which a `daily`/`weekly`
recurrence schedules a fresh row at `scheduled_time` plus one day or one
week. -/
def executeScheduledLive (env : FireEnv) (w : World) (schedId : Nat) :
    World × FireOutcome :=
  match w.db.scheds.find? (fun s => s.id == schedId) with
  | none => (w, FireOutcome.notFound)
  | some sl =>
    let w1 : World := { w with db := { w.db with
      scheds := updateScheds w.db.scheds schedId (schedToRunning env.now) } }
    match fireChecks env w1 sl with
    | Except.error msg =>
        (markSchedFailed w1 schedId msg env.now, FireOutcome.failed msg)
    | Except.ok _paths =>
      let sid := w1.db.next_session_id
      let newSession : LiveSession :=
        { id := sid, stream_key_id := sl.stream_key_id,
          video_id := sl.video_id, playlist_id := sl.playlist_id,
          mode := sl.mode, status := "starting", ffmpeg_pid := none,
          start_time := env.now, end_time := none, restart_count := 0,
          last_error := none, max_duration_hours := sl.max_duration_hours,
          loop := true }
      let w2 : World := { w1 with db := { w1.db with
        sessions := w1.db.sessions ++ [newSession],
        next_session_id := sid + 1 } }
      match env.spawnPid with
      | none =>
          (markSchedFailed w2 schedId "Failed to start FFmpeg process" env.now,
           FireOutcome.failed "Failed to start FFmpeg process")
      | some pid =>
        let w3 : World := { w2 with db := { w2.db with
          sessions := w2.db.sessions.map (fun s =>
            if s.id == sid then
              { s with ffmpeg_pid := some pid, status := "running" }
            else s) } }
        let w4 : World := { w3 with db := { w3.db with
          scheds := updateScheds w3.db.scheds schedId
            (schedToCompleted sid env.now) } }
        let nextTime : Option Nat :=
          if sl.recurrence == "daily" then some (sl.scheduled_time + 86400)
          else if sl.recurrence == "weekly" then some (sl.scheduled_time + 604800)
          else none
        match nextTime with
        | some t =>
            (scheduleLive w4 sl.stream_key_id t sl.video_id sl.playlist_id
               sl.mode sl.loop sl.recurrence sl.max_duration_hours,
             FireOutcome.completed)
        | none => (w4, FireOutcome.completed)

/-- Translation of `LiveSchedulerService.cancel_scheduled_live` (live_scheduler_service.py
lines 312-350): refuse when the row is absent or its status is outside
`['pending', 'running']`; otherwise deregister the timer and set the row to
`cancelled`.  Returns the success flag the endpoint turns into a 400. -/
def cancelScheduledLive (now : Nat) (w : World) (schedId : Nat) :
    Bool × World :=
  match w.db.scheds.find? (fun s => s.id == schedId) with
  | none => (false, w)
  | some sl =>
    if !(sl.status == "pending" || sl.status == "running") then (false, w)
    else
      let w1 : World :=
        match sl.job_id with
        | some j => { w with jobs := w.jobs.filter (fun x => !(x == j)) }
        | none => w
      (true,
       { w1 with db := { w1.db with
           scheds := updateScheds w1.db.scheds schedId
             (schedToCancelled now) } })

/-! ### Helper lemmas about row updates -/

/-- Running `find?` after an id-preserving row update returns the updated row. -/
theorem updateScheds_find (scheds : List ScheduledLive) (schedId : Nat)
    (f : ScheduledLive → ScheduledLive) (hf : ∀ s, (f s).id = s.id)
    (sl : ScheduledLive)
    (h : scheds.find? (fun s => s.id == schedId) = some sl) :
    (updateScheds scheds schedId f).find? (fun s => s.id == schedId) =
      some (f sl) := by
  have hpred : ((fun s : ScheduledLive => s.id == schedId) ∘
      (fun s => if s.id == schedId then f s else s)) =
      (fun s : ScheduledLive => s.id == schedId) := by
    funext s
    by_cases hs : (s.id == schedId) = true
    · simp [Function.comp, hs, hf s]
    · simp [Function.comp, hs]
  have hsl : (sl.id == schedId) = true :=
    List.find?_some (p := fun s : ScheduledLive => s.id == schedId) h
  have hsl2 : sl.id = schedId := by simpa using hsl
  unfold updateScheds
  rw [List.find?_map, hpred, h]
  simp [hsl2]

/-- Updating rows in place does not change the row count. -/
theorem updateScheds_length (scheds : List ScheduledLive) (schedId : Nat)
    (f : ScheduledLive → ScheduledLive) :
    (updateScheds scheds schedId f).length = scheds.length := by
  simp [updateScheds]

/-! ### Theorems for claims C4, C5 and C6 -/

/-- An active stream key used by the concrete scenarios. -/
def key1 : StreamKey := { id := 1, name := "main", key := "abcd", is_active := true }

/-- A video asset used by the concrete scenarios. -/
def video5 : Video := { id := 5, path := "/videos/a.mp4" }

/-- A fire environment in which the ffmpeg spawn succeeds with pid 777
under the default cap of 10. -/
def fireEnvOk : FireEnv := { now := 100, cap := 10, spawnPid := some 777 }

/-- A trigger that already finished: status `completed`, hence not
`pending`. -/
def completedTrigger : ScheduledLive :=
  { id := 1, stream_key_id := 1, video_id := some 5, playlist_id := none,
    scheduled_time := 50, mode := "single", loop := true, recurrence := "none",
    max_duration_hours := 0, job_id := some "live_schedule_1",
    status := "completed", live_session_id := none, started_at := some 50,
    completed_at := some 60, error_message := none }

/-- A world holding only the completed trigger, with no live session. -/
def worldC4 : World :=
  { db := { stream_keys := [key1], videos := [video5], playlists := [],
            sessions := [], scheds := [completedTrigger],
            next_session_id := 1, next_sched_id := 2 },
    jobs := [], os_pids := [] }

/-- Claim C4 is false on the code: firing the trigger whose status is
`completed` (not `pending`) is not a no-op.  The handler has no status
check after re-loading the row: it runs to completion and spawns a brand
new session (the session table grows from 0 to 1 rows). -/
theorem C4_counterexample :
    completedTrigger.status ≠ "pending" ∧
    (executeScheduledLive fireEnvOk worldC4 1).snd = FireOutcome.completed ∧
    (executeScheduledLive fireEnvOk worldC4 1).fst.db.sessions.length = 1 ∧
    worldC4.db.sessions.length = 0 := by
  decide

/-- Claim C4 as amended: the fire handler aborts (and leaves the world
unchanged) exactly when the re-load finds no row; for an existing row of
any status, including non-`pending` ones, it proceeds and finalizes the
row as `completed` or `failed` (spawning a session on the successful
path). -/
theorem C4_amended (env : FireEnv) (w : World) (schedId : Nat) :
    (w.db.scheds.find? (fun s => s.id == schedId) = none →
      executeScheduledLive env w schedId = (w, FireOutcome.notFound)) ∧
    (∀ sl, w.db.scheds.find? (fun s => s.id == schedId) = some sl →
      (executeScheduledLive env w schedId).snd ≠ FireOutcome.notFound ∧
      ∃ sl2, (executeScheduledLive env w schedId).fst.db.scheds.find?
          (fun s => s.id == schedId) = some sl2 ∧
        (sl2.status = "completed" ∨ sl2.status = "failed")) := by
  constructor
  · intro h
    unfold executeScheduledLive
    rw [h]
  · intro sl h
    have h1 := updateScheds_find w.db.scheds schedId (schedToRunning env.now)
      (fun s => rfl) sl h
    unfold executeScheduledLive
    rw [h]
    dsimp only
    split
    · next msg hfc =>
        refine ⟨fun hcontra => (nomatch hcontra), ?_⟩
        have h2 := updateScheds_find _ schedId (schedToFailed msg env.now)
          (fun s => rfl) _ h1
        exact ⟨_, h2, Or.inr rfl⟩
    · next paths hfc =>
        split
        · next hsp =>
            refine ⟨fun hcontra => (nomatch hcontra), ?_⟩
            have h2 := updateScheds_find _ schedId
              (schedToFailed "Failed to start FFmpeg process" env.now)
              (fun s => rfl) _ h1
            exact ⟨_, h2, Or.inr rfl⟩
        · next pid hsp =>
            have h2 := updateScheds_find _ schedId
              (schedToCompleted w.db.next_session_id env.now)
              (fun s => rfl) _ h1
            split
            · next t hnt =>
                refine ⟨fun hcontra => (nomatch hcontra),
                  ⟨schedToCompleted w.db.next_session_id env.now
                     (schedToRunning env.now sl), ?_, Or.inl rfl⟩⟩
                dsimp only [scheduleLive]
                rw [List.find?_append, h2]
                rfl
            · next hnt =>
                refine ⟨fun hcontra => (nomatch hcontra), ⟨_, h2, Or.inl ?_⟩⟩
                rfl

/-- Witness for C4: in the concrete world, firing the missing id 2 is a
no-op, and firing the existing row (id 1) is not aborted. -/
theorem C4_witness :
    executeScheduledLive fireEnvOk worldC4 2 = (worldC4, FireOutcome.notFound) ∧
    (executeScheduledLive fireEnvOk worldC4 1).snd ≠ FireOutcome.notFound :=
  ⟨(C4_amended fireEnvOk worldC4 2).1 (by decide),
   ((C4_amended fireEnvOk worldC4 1).2 completedTrigger (by decide)).1⟩

/-- A session already running on stream key 1, so a fire on key 1 hits the
key-busy collision. -/
def busySession : LiveSession :=
  { id := 9, stream_key_id := 1, video_id := some 5, playlist_id := none,
    mode := "single", status := "running", ffmpeg_pid := some 200,
    start_time := 0, end_time := none, restart_count := 0, last_error := none,
    max_duration_hours := 0, loop := true }

/-- A pending daily trigger on stream key 1. -/
def dailyTrigger : ScheduledLive :=
  { id := 1, stream_key_id := 1, video_id := some 5, playlist_id := none,
    scheduled_time := 1000, mode := "single", loop := true,
    recurrence := "daily", max_duration_hours := 0,
    job_id := some "live_schedule_1", status := "pending",
    live_session_id := none, started_at := none, completed_at := none,
    error_message := none }

/-- A world where the daily trigger will fail at fire time: its stream key
is held by `busySession`. -/
def worldC5 : World :=
  { db := { stream_keys := [key1], videos := [video5], playlists := [],
            sessions := [busySession], scheds := [dailyTrigger],
            next_session_id := 10, next_sched_id := 2 },
    jobs := ["live_schedule_1"], os_pids := [] }

/-- Claim C5 is false on the code: the daily trigger fires while its key is
busy; the fire fails and is finalized `failed`, and no fresh pending
trigger for the next day is scheduled (the trigger table still has exactly
its one row, and no row is `pending` afterwards). -/
theorem C5_counterexample :
    dailyTrigger.recurrence = "daily" ∧
    (executeScheduledLive fireEnvOk worldC5 1).snd =
      FireOutcome.failed "Stream key is already in use" ∧
    (executeScheduledLive fireEnvOk worldC5 1).fst.db.scheds.length = 1 ∧
    ((executeScheduledLive fireEnvOk worldC5 1).fst.db.scheds.all
      (fun s => !(s.status == "pending"))) = true := by
  decide

/-- Claim C5 as amended: for a fired trigger with recurrence `daily` or
`weekly`, the fresh pending trigger for `scheduled_time` plus 1 day
(resp. 7 days) with the same content is scheduled only when the fire
succeeds; when fire-time execution fails, the trigger is finalized as
`failed` with the reason recorded and no next recurrence is scheduled (the
trigger table keeps its row count). -/
theorem C5_amended (env : FireEnv) (w : World) (schedId : Nat)
    (sl : ScheduledLive)
    (h : w.db.scheds.find? (fun s => s.id == schedId) = some sl) :
    (∀ msg, (executeScheduledLive env w schedId).snd = FireOutcome.failed msg →
      (executeScheduledLive env w schedId).fst.db.scheds.length =
        w.db.scheds.length ∧
      ∃ sl2, (executeScheduledLive env w schedId).fst.db.scheds.find?
          (fun s => s.id == schedId) = some sl2 ∧
        sl2.status = "failed" ∧ sl2.error_message = some msg) ∧
    ((executeScheduledLive env w schedId).snd = FireOutcome.completed →
      (sl.recurrence = "daily" ∨ sl.recurrence = "weekly") →
      ∃ row ∈ (executeScheduledLive env w schedId).fst.db.scheds,
        row.status = "pending" ∧
        row.scheduled_time = sl.scheduled_time +
          (if sl.recurrence = "daily" then 86400 else 604800) ∧
        row.stream_key_id = sl.stream_key_id ∧
        row.video_id = sl.video_id ∧
        row.playlist_id = sl.playlist_id ∧
        row.mode = sl.mode ∧
        row.loop = sl.loop ∧
        row.recurrence = sl.recurrence ∧
        row.max_duration_hours = sl.max_duration_hours) := by
  have h1 := updateScheds_find w.db.scheds schedId (schedToRunning env.now)
    (fun s => rfl) sl h
  unfold executeScheduledLive
  rw [h]
  dsimp only
  split
  · next msg0 hfc =>
      constructor
      · intro msg hmsg
        injection hmsg with he
        subst he
        have h2 := updateScheds_find _ schedId (schedToFailed msg0 env.now)
          (fun s => rfl) _ h1
        refine ⟨?_, schedToFailed msg0 env.now (schedToRunning env.now sl),
          h2, rfl, rfl⟩
        simp [markSchedFailed, updateScheds_length]
      · intro hc
        exact (nomatch hc)
  · next paths hfc =>
      split
      · next hsp =>
          constructor
          · intro msg hmsg
            injection hmsg with he
            subst he
            have h2 := updateScheds_find _ schedId
              (schedToFailed "Failed to start FFmpeg process" env.now)
              (fun s => rfl) _ h1
            refine ⟨?_,
              schedToFailed "Failed to start FFmpeg process" env.now
                (schedToRunning env.now sl), h2, rfl, rfl⟩
            simp [markSchedFailed, updateScheds_length]
          · intro hc
            exact (nomatch hc)
      · next pid hsp =>
          split
          · next t hnt =>
              constructor
              · intro msg hmsg
                exact (nomatch hmsg)
              · intro _ hrec
                refine ⟨{ id := w.db.next_sched_id,
                          stream_key_id := sl.stream_key_id,
                          video_id := sl.video_id,
                          playlist_id := sl.playlist_id,
                          scheduled_time := t, mode := sl.mode,
                          loop := sl.loop, recurrence := sl.recurrence,
                          max_duration_hours := sl.max_duration_hours,
                          job_id := some ("live_schedule_" ++
                            toString w.db.next_sched_id),
                          status := "pending", live_session_id := none,
                          started_at := none, completed_at := none,
                          error_message := none }, ?_, rfl, ?_,
                  rfl, rfl, rfl, rfl, rfl, rfl, rfl⟩
                · dsimp only [scheduleLive]
                  exact List.mem_append_right _ (List.mem_singleton.mpr rfl)
                · rcases hrec with hr | hr
                  · rw [hr] at hnt ⊢
                    simp at hnt ⊢
                    omega
                  · rw [hr] at hnt ⊢
                    simp at hnt ⊢
                    omega
          · next hnt =>
              constructor
              · intro msg hmsg
                exact (nomatch hmsg)
              · intro _ hrec
                exfalso
                rcases hrec with hr | hr <;> rw [hr] at hnt <;> simp at hnt

/-- Witness for C5: applying the amended theorem to the concrete failing
fire shows the trigger table keeps its single row. -/
theorem C5_witness :
    (executeScheduledLive fireEnvOk worldC5 1).fst.db.scheds.length =
      worldC5.db.scheds.length :=
  (((C5_amended fireEnvOk worldC5 1 dailyTrigger (by decide)).1
      "Stream key is already in use") (by decide)).1

/-- A trigger that is currently firing: status `running`. -/
def runningTrigger : ScheduledLive :=
  { id := 1, stream_key_id := 1, video_id := some 5, playlist_id := none,
    scheduled_time := 1000, mode := "single", loop := true,
    recurrence := "none", max_duration_hours := 0,
    job_id := some "live_schedule_1", status := "running",
    live_session_id := none, started_at := some 1000, completed_at := none,
    error_message := none }

/-- A world holding the running trigger and its registered job. -/
def worldC6 : World :=
  { db := { stream_keys := [key1], videos := [video5], playlists := [],
            sessions := [], scheds := [runningTrigger],
            next_session_id := 1, next_sched_id := 2 },
    jobs := ["live_schedule_1"], os_pids := [] }

/-- Claim C6 is false on the code: the trigger with status `running` (not
`pending`) is accepted by cancellation (`cancel_scheduled_live` allows
status in `['pending', 'running']`): the call reports success and the row
is changed to `cancelled`. -/
theorem C6_counterexample :
    runningTrigger.status = "running" ∧
    (cancelScheduledLive 50 worldC6 1).fst = true ∧
    (cancelScheduledLive 50 worldC6 1).snd.db.scheds.map
      (fun s => s.status) = ["cancelled"] := by
  decide

/-- Claim C6 as amended: triggers with status `pending` or `running` are
cancellable; for every trigger in any other status the request is refused
and the world is unchanged; a successful cancellation deregisters the
trigger's timer (its job id leaves the scheduler registry) and sets the
row to `cancelled`. -/
theorem C6_amended (now : Nat) (w : World) (schedId : Nat)
    (sl : ScheduledLive)
    (h : w.db.scheds.find? (fun s => s.id == schedId) = some sl) :
    (sl.status ≠ "pending" ∧ sl.status ≠ "running" →
      cancelScheduledLive now w schedId = (false, w)) ∧
    ((sl.status = "pending" ∨ sl.status = "running") →
      (cancelScheduledLive now w schedId).fst = true ∧
      (∃ sl2, (cancelScheduledLive now w schedId).snd.db.scheds.find?
          (fun s => s.id == schedId) = some sl2 ∧
        sl2.status = "cancelled" ∧ sl2.completed_at = some now) ∧
      (∀ j, sl.job_id = some j →
        j ∉ (cancelScheduledLive now w schedId).snd.jobs)) := by
  unfold cancelScheduledLive
  rw [h]
  dsimp only
  constructor
  · rintro ⟨hp, hr⟩
    split
    · rfl
    · next hb =>
        exfalso
        apply hb
        simp [hp, hr]
  · intro hpr
    have hcond : (sl.status == "pending" || sl.status == "running") = true := by
      rcases hpr with hx | hx <;> simp [hx]
    split
    · next hb =>
        rw [hcond] at hb
        simp at hb
    · next hb =>
        cases hj : sl.job_id with
        | none =>
            dsimp only
            refine ⟨rfl, ⟨schedToCancelled now sl,
              updateScheds_find _ _ (schedToCancelled now) (fun s => rfl) _ h,
              rfl, rfl⟩, ?_⟩
            intro j hjj
            exact (nomatch hjj)
        | some j0 =>
            dsimp only
            refine ⟨rfl, ⟨schedToCancelled now sl,
              updateScheds_find _ _ (schedToCancelled now) (fun s => rfl) _ h,
              rfl, rfl⟩, ?_⟩
            intro j hjj
            injection hjj with he
            subst he
            intro hmem
            have hmf := (List.mem_filter.mp hmem).2
            simp at hmf

/-- A pending trigger used to witness the cancellable half of C6. -/
def pendingTrigger : ScheduledLive :=
  { id := 3, stream_key_id := 1, video_id := some 5, playlist_id := none,
    scheduled_time := 2000, mode := "single", loop := true,
    recurrence := "none", max_duration_hours := 0,
    job_id := some "live_schedule_3", status := "pending",
    live_session_id := none, started_at := none, completed_at := none,
    error_message := none }

/-- A world holding the pending trigger and its registered job. -/
def worldC6p : World :=
  { db := { stream_keys := [key1], videos := [video5], playlists := [],
            sessions := [], scheds := [pendingTrigger],
            next_session_id := 1, next_sched_id := 4 },
    jobs := ["live_schedule_3"], os_pids := [] }

/-- Witness for C6: cancelling the concrete pending trigger succeeds. -/
theorem C6_witness :
    (cancelScheduledLive 77 worldC6p 3).fst = true :=
  ((C6_amended 77 worldC6p 3 pendingTrigger (by decide)).2 (Or.inl rfl)).1

/-! ### Health monitor (`health_monitor_loop`,
stream_control_service.py lines 370-443)

The loop wakes every 10 seconds, queries the sessions with status
`running`, and for each one checks the duration cap, then liveness, then
the recovery/backoff logic.  One iteration of the `for` body for one
session snapshot is modelled below; `isRunning` is the value of
`ffmpeg_service.is_process_running(session.id)` and `lastError` the value
of `ffmpeg_service.get_last_error(session.id)`. -/

/-- The delayed-restart backoff table of `health_monitor_loop`
(stream_control_service.py line 383). -/
def backoff_delays : List Nat := [5, 30, 120, 300, 600]

/-- What the monitor decided for one session in one tick. -/
inductive MonitorDecision where
  | stoppedForDuration
  | scheduledRestart (delay : Nat)
  | markedFailed
  | leftAlone
deriving Repr, DecidableEq

/-- The body of `health_monitor_loop` for one `running` session
(stream_control_service.py lines 399-437): duration cap first; then, if
the process is dead, record the last error and either enter `recovering`
and schedule a delayed restart with `backoff_delays[restart_count]`, or,
past the table, finalize `failed` with `end_time`.  A session whose
process is alive is left completely unchanged: the loop has no
stability-reset branch. -/
def healthMonitorStep (now : Nat) (isRunning : Bool) (lastError : Option String)
    (s : LiveSession) : LiveSession × MonitorDecision :=
  if 0 < s.max_duration_hours ∧ s.max_duration_hours * 3600 ≤ now - s.start_time then
    ({ s with status := "stopped", end_time := some now },
     MonitorDecision.stoppedForDuration)
  else if !isRunning then
    let s1 := { s with last_error := lastError }
    if h : s1.restart_count < backoff_delays.length then
      ({ s1 with status := "recovering" },
       MonitorDecision.scheduledRestart (backoff_delays.get ⟨s1.restart_count, h⟩))
    else
      ({ s1 with status := "failed", end_time := some now },
       MonitorDecision.markedFailed)
  else
    (s, MonitorDecision.leftAlone)

/-- The stability-reset logic that `src/test_retry_logic.py` (lines 60-85)
re-implements and asserts: a running session with a positive restart
counter and more than 3600 seconds of uptime gets `restart_count = 0`. -/
def testResetStep (uptime_seconds : Nat) (isRunning : Bool)
    (s : LiveSession) : LiveSession :=
  if isRunning && decide (0 < s.restart_count) && decide (3600 < uptime_seconds) then
    { s with restart_count := 0 }
  else s

/-- A session that has been continuously running for 7200 seconds with
`restart_count = 4`. -/
def stableSession : LiveSession :=
  { id := 1, stream_key_id := 1, video_id := some 5, playlist_id := none,
    mode := "single", status := "running", ffmpeg_pid := some 1234,
    start_time := 0, end_time := none, restart_count := 4, last_error := none,
    max_duration_hours := 0, loop := true }

/-- Claim C7 evaluated at the failing input: the session has been running
for 7200 ≥ 3600 seconds with `restart_count = 4`, yet the monitor tick
leaves it completely unchanged (`restart_count` stays 4) because
`health_monitor_loop` has no stability-reset branch; the repository's own
test logic (`test_reset_logic`) resets the counter to 0 on the same
snapshot. -/
theorem C7_theorem :
    stableSession.restart_count = 4 ∧
    healthMonitorStep 7200 true none stableSession =
      (stableSession, MonitorDecision.leftAlone) ∧
    (healthMonitorStep 7200 true none stableSession).fst.restart_count = 4 ∧
    (testResetStep 7200 true stableSession).restart_count = 0 := by
  decide

/-! ### Boot reconciliation (`cleanup_zombie_sessions`, app/main.py lines
62-104, and `force_cleanup_orphaned_processes`,
stream_control_service.py lines 305-362)

`startup_event` runs `cleanup_zombie_sessions` and then starts the health
monitor.  The scheduler singleton is created at import time by
`LiveSchedulerService.__init__` (live_scheduler_service.py lines 27-31),
which only constructs and starts an empty in-memory
`BackgroundScheduler`: no code re-registers timers for pending triggers or
fires overdue ones, so the trigger table and the job registry are left
exactly as found. -/

/-- The pids the cleanup treats as legitimate: pids of sessions with a
non-null `ffmpeg_pid` and status `running` (stream_control_service.py
lines 329-336). -/
def dbPids (sessions : List LiveSession) : List Nat :=
  (sessions.filter (fun s => s.ffmpeg_pid.isSome && s.status == "running")).filterMap
    (fun s => s.ffmpeg_pid)

/-- Translation of `force_cleanup_orphaned_processes`: every ffmpeg process in the OS
whose pid is not in `dbPids` is force-killed (the kill is assumed to
succeed, as the code counts it killed). -/
def forceCleanupOrphanedProcesses (w : World) : World :=
  { w with os_pids := w.os_pids.filter (fun p =>
      decide (p ∈ dbPids w.db.sessions)) }

/-- The row mutation of boot cleanup: status `interrupted`, `end_time`
stamped (app/main.py lines 82-84). -/
def sessionToInterrupted (now : Nat) (s : LiveSession) : LiveSession :=
  { s with status := "interrupted", end_time := some now }

/-- Translation of `cleanup_zombie_sessions` (app/main.py lines 62-89): kill orphans,
then mark every remaining `running` session row as `interrupted`. -/
def cleanupZombieSessions (now : Nat) (w : World) : World :=
  let w1 := forceCleanupOrphanedProcesses w
  { w1 with db := { w1.db with sessions := w1.db.sessions.map (fun s =>
      if s.status == "running" then sessionToInterrupted now s else s) } }

/-- Everything the process does to this state at boot before accepting
traffic (`startup_event`, app/main.py lines 91-104): the zombie cleanup;
no scheduler timer is restored and no overdue trigger is fired. -/
def bootReconcile (now : Nat) (w : World) : World :=
  cleanupZombieSessions now w

/-- A `running` session row whose encoder is alive in the OS (pid 100). -/
def liveBootSession : LiveSession :=
  { id := 1, stream_key_id := 1, video_id := some 5, playlist_id := none,
    mode := "single", status := "running", ffmpeg_pid := some 100,
    start_time := 0, end_time := none, restart_count := 0, last_error := none,
    max_duration_hours := 0, loop := true }

/-- A pending trigger whose scheduled time is already in the past at
boot. -/
def overduePending : ScheduledLive :=
  { id := 4, stream_key_id := 1, video_id := some 5, playlist_id := none,
    scheduled_time := 10, mode := "single", loop := true,
    recurrence := "none", max_duration_hours := 0,
    job_id := some "live_schedule_4", status := "pending",
    live_session_id := none, started_at := none, completed_at := none,
    error_message := none }

/-- The world at boot (time 1000): one running session whose pid matches a
live OS process, one overdue pending trigger, and the empty job registry
of a freshly restarted process. -/
def worldC8 : World :=
  { db := { stream_keys := [key1], videos := [video5], playlists := [],
            sessions := [liveBootSession], scheds := [overduePending],
            next_session_id := 2, next_sched_id := 5 },
    jobs := [], os_pids := [100] }

/-- Claim C8 is false on the code, on both of its last two steps: the
`running` session whose pid 100 has a matching OS process (the pid even
survives the orphan kill) is still transitioned to `interrupted`, and the
overdue pending trigger is neither fired nor given a timer — after boot it
is still `pending` and the job registry is still empty. -/
theorem C8_counterexample :
    (100 ∈ worldC8.os_pids ∧ liveBootSession.ffmpeg_pid = some 100 ∧
      liveBootSession.status = "running") ∧
    100 ∈ (bootReconcile 1000 worldC8).os_pids ∧
    (bootReconcile 1000 worldC8).db.sessions.map (fun s => s.status) =
      ["interrupted"] ∧
    (overduePending.scheduled_time < 1000 ∧
      (bootReconcile 1000 worldC8).db.scheds.map (fun s => s.status) =
        ["pending"] ∧
      (bootReconcile 1000 worldC8).jobs = []) := by
  decide

/-- Claim C8 as amended: at boot the process (i) kills exactly the ffmpeg
OS processes whose pids are not recorded on a `running` session row with a
non-null pid, (ii) transitions every `running` session row to
`interrupted` with `end_time` set — regardless of whether its pid has a
matching OS process — leaving non-running rows untouched, and (iii)
performs no scheduler recovery: the trigger rows and the timer registry
are unchanged. -/
theorem C8_amended (now : Nat) (w : World) :
    (∀ p, p ∈ (bootReconcile now w).os_pids ↔
      p ∈ w.os_pids ∧ p ∈ dbPids w.db.sessions) ∧
    (∀ s ∈ w.db.sessions, s.status = "running" →
      sessionToInterrupted now s ∈ (bootReconcile now w).db.sessions) ∧
    (∀ s ∈ w.db.sessions, s.status ≠ "running" →
      s ∈ (bootReconcile now w).db.sessions) ∧
    (∀ s ∈ (bootReconcile now w).db.sessions, s.status ≠ "running") ∧
    (bootReconcile now w).db.scheds = w.db.scheds ∧
    (bootReconcile now w).jobs = w.jobs := by
  refine ⟨?_, ?_, ?_, ?_, rfl, rfl⟩
  · intro p
    simp [bootReconcile, cleanupZombieSessions, forceCleanupOrphanedProcesses,
      List.mem_filter]
  · intro s hs hrun
    refine List.mem_map.mpr ⟨s, hs, ?_⟩
    simp [hrun]
  · intro s hs hnot
    refine List.mem_map.mpr ⟨s, hs, ?_⟩
    simp [hnot]
  · intro s hs
    obtain ⟨u, hu, rfl⟩ := List.mem_map.mp hs
    by_cases hc : u.status = "running"
    · simp [hc, sessionToInterrupted]
    · simp [hc]

/-- Witness for C8: the concrete running session is transitioned to
`interrupted` with `end_time` set at boot. -/
theorem C8_witness :
    sessionToInterrupted 1000 liveBootSession ∈
      (bootReconcile 1000 worldC8).db.sessions :=
  (C8_amended 1000 worldC8).2.1 liveBootSession (by decide) rfl

/-! ### Manual start, stop and delayed restart
(`start_manual_live`, live.py lines 68-228; `stop_stream_by_session_id`,
stream_control_service.py lines 21-87; `delayed_restart`,
stream_control_service.py lines 445-514) -/

/-- Running `find?` through an in-place update of exactly the rows the predicate
selects, when the update preserves the predicate. -/
theorem find?_map_ite {α : Type} (l : List α) (q : α → Bool) (f : α → α)
    (hf : ∀ a, q (f a) = q a) (x : α) (h : l.find? q = some x) :
    (l.map (fun a => if q a then f a else a)).find? q = some (f x) := by
  have hpred : (q ∘ (fun a => if q a then f a else a)) = q := by
    funext a
    by_cases ha : q a = true
    · simp [Function.comp, ha, hf a]
    · simp [Function.comp, ha]
  have hx : q x = true := List.find?_some h
  rw [List.find?_map, hpred, h]
  simp [hx]

/-- The body of `ManualLiveRequest` (live.py lines 33-42); `youtube_id` is
carried through unchanged by the endpoint and is irrelevant to the
verified claims, so it is omitted. -/
structure ManualLiveRequest where
  stream_key_id : Nat
  video_id : Option Nat
  playlist_id : Option Nat
  mode : String
  loop : Bool
  max_duration_hours : Nat
deriving Repr, DecidableEq

/-- The HTTP outcome of the manual-start endpoint. -/
inductive HttpResponse where
  | ok (session_id ffmpeg_pid : Nat)
  | err (code : Nat)
deriving Repr, DecidableEq

/-- Translation of `start_manual_live` (live.py lines 68-228): mode and content-id
validation (400), stream-key lookup (404) and active check (400), content
resolution (404 missing, 400 empty playlist), the two admission checks
(409, 429), insertion of the session row with status `starting`, then the
spawn: on failure the row's status is set to `failed` — `end_time` is not
touched — and a 500 is returned; on success the pid is recorded and the
status set to `running`. -/
def startManualLive (env : FireEnv) (db : Db) (req : ManualLiveRequest) :
    HttpResponse × Db :=
  if !(req.mode == "single" || req.mode == "playlist") then
    (HttpResponse.err 400, db)
  else if req.mode == "single" && req.video_id.isNone then
    (HttpResponse.err 400, db)
  else if req.mode == "playlist" && req.playlist_id.isNone then
    (HttpResponse.err 400, db)
  else
    match db.stream_keys.find? (fun k => k.id == req.stream_key_id) with
    | none => (HttpResponse.err 404, db)
    | some key =>
      if !key.is_active then (HttpResponse.err 400, db)
      else
        let ps : Except Nat (List String) :=
          if req.mode == "single" then
            match req.video_id.bind (fun vid =>
                db.videos.find? (fun v => v.id == vid)) with
            | none => Except.error 404
            | some v => Except.ok [v.path]
          else
            match req.playlist_id.bind (fun plid =>
                db.playlists.find? (fun p => p.id == plid)) with
            | none => Except.error 404
            | some p =>
                if p.paths.isEmpty then Except.error 400 else Except.ok p.paths
        match ps with
        | Except.error c => (HttpResponse.err c, db)
        | Except.ok _paths =>
          match admissionCheck db.sessions req.stream_key_id env.cap with
          | AdmissionResult.keyBusy => (HttpResponse.err 409, db)
          | AdmissionResult.capacityExhausted => (HttpResponse.err 429, db)
          | AdmissionResult.ok =>
            let sid := db.next_session_id
            let s0 : LiveSession :=
              { id := sid, stream_key_id := req.stream_key_id,
                video_id := req.video_id, playlist_id := req.playlist_id,
                mode := req.mode, status := "starting", ffmpeg_pid := none,
                start_time := env.now, end_time := none, restart_count := 0,
                last_error := none,
                max_duration_hours := req.max_duration_hours,
                loop := req.loop }
            let db1 : Db := { db with
              sessions := db.sessions ++ [s0],
              next_session_id := sid + 1 }
            match env.spawnPid with
            | none =>
                (HttpResponse.err 500,
                 { db1 with sessions := db1.sessions.map (fun t =>
                     if t.id == sid then { t with status := "failed" }
                     else t) })
            | some pid =>
                (HttpResponse.ok sid pid,
                 { db1 with sessions := db1.sessions.map (fun t =>
                     if t.id == sid then
                       { t with ffmpeg_pid := some pid, status := "running" }
                     else t) })

/-- The result reported by `stop_stream_by_session_id`. -/
inductive StopResult where
  | notFound
  | alreadyFinished
  | stopped
deriving Repr, DecidableEq

/-- Translation of `stop_stream_by_session_id` (stream_control_service.py lines 21-87):
unknown id fails; a session already `stopped` or `failed` is a success
with no change; otherwise the process is killed and the row is set to
`stopped` with `end_time` stamped. -/
def stopStreamBySessionId (now : Nat) (db : Db) (sessionId : Nat) :
    Db × StopResult :=
  match db.sessions.find? (fun t => t.id == sessionId) with
  | none => (db, StopResult.notFound)
  | some s =>
    if s.status == "stopped" || s.status == "failed" then
      (db, StopResult.alreadyFinished)
    else
      ({ db with sessions := db.sessions.map (fun t =>
          if t.id == sessionId then
            { t with status := "stopped", end_time := some now }
          else t) },
       StopResult.stopped)

/-- The checks of `delayed_restart` before the spawn
(stream_control_service.py lines 465-495): stream key present and active,
content resolved, non-empty path list; any raised exception collapses to
`none`, as does a failed spawn. -/
def restartChecks (env : FireEnv) (db : Db) (s : LiveSession) : Option Nat :=
  match db.stream_keys.find? (fun k => k.id == s.stream_key_id) with
  | none => none
  | some key =>
    if !key.is_active then none
    else
      let paths : List String :=
        if s.mode == "single" then
          match s.video_id.bind (fun vid =>
              db.videos.find? (fun v => v.id == vid)) with
          | none => []
          | some v => [v.path]
        else
          match s.playlist_id.bind (fun plid =>
              db.playlists.find? (fun p => p.id == plid)) with
          | none => []
          | some p => p.paths
      if paths.isEmpty then none else env.spawnPid

/-- Translation of `delayed_restart` (stream_control_service.py lines 445-514): after the
backoff sleep, re-load the row and return unless it is still
`recovering`; on a successful respawn set the new pid, status `running`,
increment `restart_count` and clear `last_error`; on any failure set
status `failed` and record the reason — `end_time` is not touched. -/
def delayedRestart (env : FireEnv) (db : Db) (sessionId : Nat) : Db :=
  match db.sessions.find? (fun t => t.id == sessionId) with
  | none => db
  | some s =>
    if !(s.status == "recovering") then db
    else
      match restartChecks env db s with
      | some pid =>
          { db with sessions := db.sessions.map (fun t =>
              if t.id == sessionId then
                { t with ffmpeg_pid := some pid, status := "running",
                         restart_count := t.restart_count + 1,
                         last_error := none }
              else t) }
      | none =>
          { db with sessions := db.sessions.map (fun t =>
              if t.id == sessionId then
                { t with status := "failed",
                         last_error := some "Restart failed" }
              else t) }

/-! ### Invariant I3 and theorems for claim C9 -/

/-- Invariant I3 for one session row: `end_time` is non-null iff the
status is `stopped`, `failed` or `interrupted`. -/
def sessionI3 (s : LiveSession) : Prop :=
  s.end_time ≠ none ↔
    (s.status = "stopped" ∨ s.status = "failed" ∨ s.status = "interrupted")

instance (s : LiveSession) : Decidable (sessionI3 s) := by
  unfold sessionI3
  infer_instance

/-- Invariant I3 over the whole session table. -/
def invariantI3 (sessions : List LiveSession) : Prop :=
  ∀ s ∈ sessions, sessionI3 s

instance (sessions : List LiveSession) : Decidable (invariantI3 sessions) :=
  List.decidableBAll _ sessions

/-- The autoincrement property of the session table: every stored id is
below the next fresh id. -/
def freshSessionId (db : Db) : Prop :=
  ∀ s ∈ db.sessions, s.id < db.next_session_id

/-- A database holding the active key and the video asset, no sessions. -/
def dbC9 : Db :=
  { stream_keys := [key1], videos := [video5], playlists := [],
    sessions := [], scheds := [], next_session_id := 1, next_sched_id := 1 }

/-- A valid single-video manual start request on key 1. -/
def reqC9 : ManualLiveRequest :=
  { stream_key_id := 1, video_id := some 5, playlist_id := none,
    mode := "single", loop := true, max_duration_hours := 0 }

/-- An environment in which the ffmpeg spawn fails. -/
def spawnFailEnv : FireEnv := { now := 100, cap := 10, spawnPid := none }

/-- Claim C9 is false on the code: starting from a database satisfying I3,
a manual start whose spawn fails returns 500 and leaves a session row with
status `failed` and `end_time` null (live.py lines 200-204 set only the
status), violating I3. -/
theorem C9_counterexample :
    invariantI3 dbC9.sessions ∧
    (startManualLive spawnFailEnv dbC9 reqC9).fst = HttpResponse.err 500 ∧
    (startManualLive spawnFailEnv dbC9 reqC9).snd.sessions.map
      (fun s => (s.status, s.end_time)) = [("failed", none)] ∧
    ¬ invariantI3 (startManualLive spawnFailEnv dbC9 reqC9).snd.sessions := by
  decide

/-- Claim C9 as amended: I3 is preserved by the stop path, by every
health-monitor step on a `running` session, by boot reconciliation, and by
a scheduler fire (under the autoincrement freshness of session ids); it is
violated only by the two spawn-failure paths: the manual-start failure
path leaves every row satisfying I3 except the new session row, which is
set to `failed` with `end_time` still null, and the delayed-restart
failure path rewrites the recovering row to `failed` while leaving
`end_time` untouched (null for a recovering row). -/
theorem C9_amended (env : FireEnv) (db : Db) (req : ManualLiveRequest)
    (w : World) (now sessionId schedId : Nat) (isRunning : Bool)
    (lastError : Option String) (s : LiveSession) :
    (invariantI3 db.sessions →
      invariantI3 (stopStreamBySessionId now db sessionId).fst.sessions) ∧
    (s.status = "running" → sessionI3 s →
      sessionI3 (healthMonitorStep now isRunning lastError s).fst) ∧
    (invariantI3 w.db.sessions →
      invariantI3 (bootReconcile now w).db.sessions) ∧
    (freshSessionId w.db → invariantI3 w.db.sessions →
      invariantI3 (executeScheduledLive env w schedId).fst.db.sessions) ∧
    (freshSessionId db → invariantI3 db.sessions →
      ∀ t ∈ (startManualLive env db req).snd.sessions,
        sessionI3 t ∨ (t.status = "failed" ∧ t.end_time = none)) ∧
    (db.sessions.find? (fun t => t.id == sessionId) = some s →
      s.status = "recovering" → restartChecks env db s = none →
      (delayedRestart env db sessionId).sessions.find?
          (fun t => t.id == sessionId) =
        some { s with status := "failed",
                      last_error := some "Restart failed" }) := by
  refine ⟨?_, ?_, ?_, ?_, ?_, ?_⟩
  · -- stop preserves I3
    intro hI
    unfold stopStreamBySessionId
    split
    · exact hI
    · next s0 hfind =>
        split
        · exact hI
        · intro t ht
          obtain ⟨u, hu, rfl⟩ := List.mem_map.mp ht
          by_cases hc : (u.id == sessionId) = true
          · simp [hc, sessionI3]
          · simp [hc]
            exact hI u hu
  · -- one health-monitor step preserves I3 on a running session
    intro hrun hI3
    have hend : s.end_time = none := by
      have h3 := hI3
      simp [sessionI3, hrun] at h3
      exact h3
    unfold healthMonitorStep
    split
    · simp [sessionI3]
    · dsimp only
      split
      · split
        · simp [sessionI3, hend]
        · simp [sessionI3]
      · exact hI3
  · -- boot reconciliation preserves I3
    intro hI t ht
    have ht2 : t ∈ w.db.sessions.map (fun u =>
        if u.status == "running" then sessionToInterrupted now u else u) := ht
    obtain ⟨u, hu, rfl⟩ := List.mem_map.mp ht2
    by_cases hc : (u.status == "running") = true
    · simp [hc, sessionI3, sessionToInterrupted]
    · simp [hc]
      exact hI u hu
  · -- a scheduler fire preserves I3 (fresh session ids)
    intro hfresh hI
    unfold executeScheduledLive
    split
    · exact hI
    · next sl hfind =>
        dsimp only
        split
        · exact hI
        · next paths hfc =>
            split
            · next hsp =>
                intro t ht
                rcases List.mem_append.mp ht with hl | hr
                · exact hI t hl
                · have he := List.mem_singleton.mp hr
                  subst he
                  simp [sessionI3]
            · next pid hsp =>
                split
                · next t0 hnt =>
                    intro t ht
                    obtain ⟨u, hu, rfl⟩ := List.mem_map.mp ht
                    rcases List.mem_append.mp hu with hl | hr
                    · have hne : (u.id == w.db.next_session_id) = false := by
                        simp [beq_eq_false_iff_ne]
                        exact Nat.ne_of_lt (hfresh u hl)
                      simp [hne]
                      exact hI u hl
                    · have he := List.mem_singleton.mp hr
                      subst he
                      simp [sessionI3]
                · next hnt =>
                    intro t ht
                    obtain ⟨u, hu, rfl⟩ := List.mem_map.mp ht
                    rcases List.mem_append.mp hu with hl | hr
                    · have hne : (u.id == w.db.next_session_id) = false := by
                        simp [beq_eq_false_iff_ne]
                        exact Nat.ne_of_lt (hfresh u hl)
                      simp [hne]
                      exact hI u hl
                    · have he := List.mem_singleton.mp hr
                      subst he
                      simp [sessionI3]
  · -- manual start: I3 everywhere except the spawn-failure row
    intro hfresh hI
    unfold startManualLive
    split
    · intro t ht; exact Or.inl (hI t ht)
    · split
      · intro t ht; exact Or.inl (hI t ht)
      · split
        · intro t ht; exact Or.inl (hI t ht)
        · split
          · intro t ht; exact Or.inl (hI t ht)
          · next key hkey =>
              split
              · intro t ht; exact Or.inl (hI t ht)
              · dsimp only
                split
                · intro t ht; exact Or.inl (hI t ht)
                · split
                  · intro t ht; exact Or.inl (hI t ht)
                  · intro t ht; exact Or.inl (hI t ht)
                  · split
                    · next hsp =>
                        intro t ht
                        obtain ⟨u, hu, rfl⟩ := List.mem_map.mp ht
                        rcases List.mem_append.mp hu with hl | hr
                        · have hne : (u.id == db.next_session_id) = false := by
                            simp [beq_eq_false_iff_ne]
                            exact Nat.ne_of_lt (hfresh u hl)
                          simp [hne]
                          exact Or.inl (hI u hl)
                        · have he := List.mem_singleton.mp hr
                          subst he
                          right
                          constructor <;> simp
                    · next pid hsp =>
                        intro t ht
                        obtain ⟨u, hu, rfl⟩ := List.mem_map.mp ht
                        rcases List.mem_append.mp hu with hl | hr
                        · have hne : (u.id == db.next_session_id) = false := by
                            simp [beq_eq_false_iff_ne]
                            exact Nat.ne_of_lt (hfresh u hl)
                          simp [hne]
                          exact Or.inl (hI u hl)
                        · have he := List.mem_singleton.mp hr
                          subst he
                          left
                          simp [sessionI3]
  · -- delayed restart: the failure path writes failed without end_time
    intro hfind hrec hchk
    unfold delayedRestart
    rw [hfind]
    dsimp only
    split
    · next hb =>
        rw [hrec] at hb
        simp at hb
    · next hb =>
        rw [hchk]
        dsimp only
        exact find?_map_ite db.sessions (fun t => t.id == sessionId)
          (fun t => { t with
            status := "failed",
            last_error := some "Restart failed" })
          (fun t => rfl) s hfind

/-- A session in recovery (scheduled for a delayed restart). -/
def recoveringSession : LiveSession :=
  { id := 7, stream_key_id := 1, video_id := some 5, playlist_id := none,
    mode := "single", status := "recovering", ffmpeg_pid := some 300,
    start_time := 0, end_time := none, restart_count := 2,
    last_error := some "broken pipe", max_duration_hours := 0, loop := true }

/-- A database holding the recovering session. -/
def dbC9rec : Db :=
  { stream_keys := [key1], videos := [video5], playlists := [],
    sessions := [recoveringSession], scheds := [],
    next_session_id := 8, next_sched_id := 1 }

/-- Witness for C9: applying the amended theorem to the concrete
recovering session whose respawn fails shows the row rewritten to
`failed` with `end_time` untouched (still null). -/
theorem C9_witness :
    (delayedRestart spawnFailEnv dbC9rec 7).sessions.find?
        (fun t => t.id == 7) =
      some { recoveringSession with
        status := "failed",
        last_error := some "Restart failed" } :=
  (C9_amended spawnFailEnv dbC9rec reqC9 worldC8 0 7 0 true none
      recoveringSession).2.2.2.2.2 (by decide) rfl (by decide)
